import Mathlib

/-
Verification of the OAuth command of step-cli (src/command/oauth/cmd.go).

The Go source is shallowly embedded: pure computations (query construction,
PKCE challenge derivation, JSON shape dispatch, integer parsing) become Lean
functions; external effects (network POSTs, the JWS signer, PEM decoding,
random generation, channel delivery) become explicit parameters or oracles,
exactly at the interface boundary the code uses them.  Machine integers are
modelled as Nat / Int with explicit reductions modulo 2^32 or clamping at
2^63 where the Go code can overflow.
-/

namespace StepOauth

/-! Bytes, SHA-256 and base64url (RawURLEncoding), as used by Auth to build
the PKCE code challenge: sha256.Sum256 followed by
base64.RawURLEncoding.EncodeToString. -/

def M32 : Nat := 4294967296

def add32 (a b : Nat) : Nat := (a + b) % M32

def rotr32 (n x : Nat) : Nat := (x >>> n) ||| ((x <<< (32 - n)) % M32)

def not32 (x : Nat) : Nat := x ^^^ (M32 - 1)

def ssig0 (x : Nat) : Nat := (rotr32 7 x) ^^^ (rotr32 18 x) ^^^ (x >>> 3)

def ssig1 (x : Nat) : Nat := (rotr32 17 x) ^^^ (rotr32 19 x) ^^^ (x >>> 10)

def bsig0 (x : Nat) : Nat := (rotr32 2 x) ^^^ (rotr32 13 x) ^^^ (rotr32 22 x)

def bsig1 (x : Nat) : Nat := (rotr32 6 x) ^^^ (rotr32 11 x) ^^^ (rotr32 25 x)

def chF (x y z : Nat) : Nat := (x &&& y) ^^^ ((not32 x) &&& z)

def majF (x y z : Nat) : Nat := (x &&& y) ^^^ (x &&& z) ^^^ (y &&& z)

/-- The 64 SHA-256 round constants of FIPS 180-4, written in decimal. -/
def sha256K : List Nat :=
  [1116352408, 1899447441, 3049323471, 3921009573, 961987163, 1508970993,
   2453635748, 2870763221, 3624381080, 310598401, 607225278, 1426881987,
   1925078388, 2162078206, 2614888103, 3248222580, 3835390401, 4022224774,
   264347078, 604807628, 770255983, 1249150122, 1555081692, 1996064986,
   2554220882, 2821834349, 2952996808, 3210313671, 3336571891, 3584528711,
   113926993, 338241895, 666307205, 773529912, 1294757372, 1396182291,
   1695183700, 1986661051, 2177026350, 2456956037, 2730485921, 2820302411,
   3259730800, 3345764771, 3516065817, 3600352804, 4094571909, 275423344,
   430227734, 506948616, 659060556, 883997877, 958139571, 1322822218,
   1537002063, 1747873779, 1955562222, 2024104815, 2227730452, 2361852424,
   2428436474, 2756734187, 3204031479, 3329325298]

/-- The eight SHA-256 initial hash values of FIPS 180-4, written in decimal. -/
def sha256H0 : List Nat :=
  [1779033703, 3144134277, 1013904242, 2773480762,
   1359893119, 2600822924, 528734635, 1541459225]

def bytesToWords : List Nat → List Nat
  | a :: b :: c :: d :: rest => (((a * 256 + b) * 256 + c) * 256 + d) :: bytesToWords rest
  | _ => []

def natToBEBytes : Nat → Nat → List Nat
  | 0, _ => []
  | Nat.succ k, n => natToBEBytes k (n / 256) ++ [n % 256]

def sha256Pad (msg : List Nat) : List Nat :=
  let L := msg.length
  let z := (120 - (L + 1) % 64) % 64
  msg ++ [128] ++ List.replicate z 0 ++ natToBEBytes 8 (8 * L)

def chunk16Aux : Nat → List Nat → List (List Nat)
  | 0, _ => []
  | _, [] => []
  | Nat.succ fuel, w :: ws => (w :: ws).take 16 :: chunk16Aux fuel ((w :: ws).drop 16)

def chunk16 (ws : List Nat) : List (List Nat) := chunk16Aux ws.length ws

def extendW : List Nat → Nat → List Nat
  | ws, 0 => ws
  | ws, Nat.succ k =>
    let i := ws.length
    let w := add32 (add32 (ssig1 (ws.getD (i - 2) 0)) (ws.getD (i - 7) 0))
                   (add32 (ssig0 (ws.getD (i - 15) 0)) (ws.getD (i - 16) 0))
    extendW (ws ++ [w]) k

def sha256Round (st : List Nat) (w k : Nat) : List Nat :=
  let a := st.getD 0 0
  let b := st.getD 1 0
  let c := st.getD 2 0
  let d := st.getD 3 0
  let e := st.getD 4 0
  let f := st.getD 5 0
  let g := st.getD 6 0
  let h := st.getD 7 0
  let t1 := add32 (add32 (add32 h (bsig1 e)) (add32 (chF e f g) k)) w
  let t2 := add32 (bsig0 a) (majF a b c)
  [add32 t1 t2, a, b, c, add32 d t1, e, f, g]

def sha256Block (hs block : List Nat) : List Nat :=
  let ws := extendW block 48
  let st := (ws.zip sha256K).foldl (fun s wk => sha256Round s wk.1 wk.2) hs
  (hs.zip st).map (fun p => add32 p.1 p.2)

def sha256 (msg : List Nat) : List Nat :=
  let blocks := chunk16 (bytesToWords (sha256Pad msg))
  let hFinal := blocks.foldl sha256Block sha256H0
  hFinal.foldr (fun w acc => natToBEBytes 4 w ++ acc) []

def b64urlAlphabet : String :=
  "ABCDEFGHIJKLMNOPQRSTUVWXYZabcdefghijklmnopqrstuvwxyz0123456789-_"

def b64urlChar (n : Nat) : Char := b64urlAlphabet.data.getD n (Char.ofNat 65)

def b64urlNoPad : List Nat → String
  | [] => ""
  | [a] => String.mk [b64urlChar (a / 4), b64urlChar ((a % 4) * 16)]
  | [a, b] => String.mk [b64urlChar (a / 4), b64urlChar ((a % 4) * 16 + b / 16),
                         b64urlChar ((b % 16) * 4)]
  | a :: b :: c :: rest =>
    String.mk [b64urlChar (a / 4), b64urlChar ((a % 4) * 16 + b / 16),
               b64urlChar ((b % 16) * 4 + c / 64), b64urlChar (c % 64)] ++ b64urlNoPad rest

def utf8Char (c : Char) : List Nat :=
  let n := c.toNat
  if n < 128 then [n]
  else if n < 2048 then [192 + n / 64, 128 + n % 64]
  else if n < 65536 then [224 + n / 4096, 128 + (n / 64) % 64, 128 + n % 64]
  else [240 + n / 262144, 128 + (n / 4096) % 64, 128 + (n / 64) % 64, 128 + n % 64]

def utf8Encode (s : String) : List Nat := s.data.foldr (fun c acc => utf8Char c ++ acc) []

/-! Go strconv.Atoi, as used (with its error ignored) by the implicit-flow
handler on the expires_in query parameter.  Atoi accepts an optional sign and
decimal digits; on a syntax error it returns 0 with an error, and on an
out-of-range value it returns the saturated 64-bit bound with an error
(strconv.ErrRange).  The Bool component is true exactly when Go returns a nil
error. -/

def parseDecDigits (cs : List Char) : Option Nat :=
  cs.foldl
    (fun acc c =>
      match acc with
      | none => none
      | some n => if c.isDigit then some (n * 10 + (c.toNat - 48)) else none)
    (some 0)

def maxInt64 : Int := 9223372036854775807

def minInt64 : Int := -9223372036854775808

def goAtoiCore (neg : Bool) (ds : List Char) : Int × Bool :=
  if ds.isEmpty then (0, false)
  else
    match parseDecDigits ds with
    | none => (0, false)
    | some n =>
      if neg then
        if (n : Int) ≤ 9223372036854775808 then (-(n : Int), true) else (minInt64, false)
      else
        if (n : Int) ≤ maxInt64 then ((n : Int), true) else (maxInt64, false)

def goAtoi (s : String) : Int × Bool :=
  match s.data with
  | [] => (0, false)
  | c :: rest =>
    if c = '-' then goAtoiCore true rest
    else if c = '+' then goAtoiCore false rest
    else goAtoiCore false (c :: rest)

/-! A model of the JSON values that json.Unmarshal produces into a
map[string]interface{}: objects become maps, strings become Go strings,
numbers, booleans, null and arrays become the corresponding dynamic values.
Only the dynamic type distinctions the code observes are needed. -/

inductive JSON where
  | null : JSON
  | bool : Bool → JSON
  | num : Int → JSON
  | str : String → JSON
  | arr : List JSON → JSON
  | obj : List (String × JSON) → JSON

/-- Go interface comparison of a dynamic value against a string constant:
equal exactly when the dynamic type is string and the contents agree. -/
def jsonEqStrVal : JSON → String → Bool
  | JSON.str s, t => s = t
  | _, _ => false

/-- Go type assertion .(string) applied to a map lookup result: yields the
string when the key is present with a string value, and signals a run-time
panic (modelled as none) otherwise. -/
def strField (d : List (String × JSON)) (k : String) : Option String :=
  match d.lookup k with
  | some (JSON.str s) => some s
  | _ => none

/-! The token result entity (struct token in cmd.go) and the oauth session
state.  ExpiresIn is a Go int, modelled as Int (64-bit semantics are captured
where parsing can clamp).  The two channels of the Go struct are modelled by
the explicit channel-write outcome of the HTTP handler below. -/

structure token where
  AccessToken : String
  IDToken : String
  RefreshToken : String
  ExpiresIn : Int
  TokenType : String
  Err : String
  ErrDesc : String
deriving Repr, DecidableEq

def defaultClientID : String :=
  "1087160488420-8qt7bavg3qesdhs6it824mhnfgcfe8il.apps.googleusercontent.com"

def defaultClientNotSoSecret : String := "udTrOT3gzrO7W9fDPgZQLfYJ"

def oobCallbackUrn : String := "urn:ietf:wg:oauth:2.0:oob"

def jwtBearerUrn : String := "urn:ietf:params:oauth:grant-type:jwt-bearer"

structure options where
  Provider : String
  Email : String
  Console : Bool
  Implicit : Bool
  CallbackListener : String
  CallbackListenerURL : String
  CallbackPath : String
  TerminalRedirect : String
  Browser : String
deriving Repr, DecidableEq

structure oauth where
  provider : String
  clientID : String
  clientSecret : String
  scope : String
  prompt : String
  loginHint : String
  redirectURI : String
  tokenEndpoint : String
  authzEndpoint : String
  userInfoEndpoint : String
  state : String
  codeChallenge : String
  nonce : String
  implicit : Bool
  CallbackListener : String
  CallbackListenerURL : String
  CallbackPath : String
  terminalRedirect : String
  browser : String
deriving Repr, DecidableEq

/-! Config resolution.  randutil and the account-file read / JSON parse are
external; the parsed account object and the generated random strings enter as
parameters.  pkg/errors Wrapf propagates nil: wrapping a nil error yields a
nil error, which the unsupported-account-type branch of oauthCmd does. -/

def wrapf (err : Option String) (msg : String) : Option String :=
  match err with
  | none => none
  | some e => some (msg ++ ": " ++ e)

structure AccountCfg where
  authzEp : String
  tokenEp : String
  clientID : String
  clientSecret : String
  issuer : String
  do2lo : Bool
deriving Repr, DecidableEq

inductive CmdExit where
  | cont : AccountCfg → CmdExit
  | earlyReturn : Option String → CmdExit
  | crash : CmdExit
deriving Repr, DecidableEq

/-- The account-file block of oauthCmd (cmd.go lines 300-328), entered after
json.Unmarshal succeeded, so the ambient err variable is nil.  cont carries
the credentials the block extracts; earlyReturn is a return from oauthCmd with
the carried error value (none is a nil error, so exit status 0); crash is a
run-time panic from a failed type assertion. -/
def processAccount (account : List (String × JSON)) (filename : String) : CmdExit :=
  match account.lookup "installed" with
  | some (JSON.obj details) =>
    match strField details "auth_uri", strField details "token_uri",
          strField details "client_id", strField details "client_secret" with
    | some a, some t, some ci, some cs => CmdExit.cont ⟨a, t, ci, cs, "", false⟩
    | _, _, _, _ => CmdExit.crash
  | some _ => CmdExit.crash
  | none =>
    match account.lookup "type" with
    | some ty =>
      if jsonEqStrVal ty "service_account" then
        match strField account "auth_uri", strField account "token_uri",
              strField account "private_key_id", strField account "private_key",
              strField account "client_email" with
        | some a, some t, some pkid, some pk, some em => CmdExit.cont ⟨a, t, pkid, pk, em, true⟩
        | _, _, _, _, _ => CmdExit.crash
      else CmdExit.earlyReturn (wrapf none ("error reading " ++ filename ++ ": unsupported account type"))
    | none => CmdExit.earlyReturn (wrapf none ("error reading " ++ filename ++ ": unsupported account type"))

/-! OIDC discovery URL construction (disco, cmd.go lines 528-553).  The HTTP
fetch and JSON parse are external; the path arithmetic uses Go path.Join /
path.Clean, embedded here, and strings.Contains. -/

def hasSubList : List Char → List Char → Bool
  | [], needle => needle.isEmpty
  | c :: rest, needle => needle.isPrefixOf (c :: rest) || hasSubList rest needle

def strHasSub (s sub : String) : Bool := hasSubList s.data sub.data

def headIsSlash (p : String) : Bool :=
  match p.data with
  | '/' :: _ => true
  | _ => false

def splitSlashAux : List Char → List Char → List String
  | [], acc => [String.mk acc.reverse]
  | c :: rest, acc =>
    if c = '/' then String.mk acc.reverse :: splitSlashAux rest []
    else splitSlashAux rest (c :: acc)

def splitSlash (s : String) : List String := splitSlashAux s.data []

def joinSlash : List String → String
  | [] => ""
  | [s] => s
  | s :: rest => s ++ "/" ++ joinSlash rest

/-- Go path.Clean: lexical cleaning of slash-separated paths, resolving "."
and ".." components. -/
def goPathClean (p : String) : String :=
  if p = "" then "."
  else
    let rooted := headIsSlash p
    let comps := (splitSlash p).filter (fun c => c ≠ "" && c ≠ ".")
    let resolved := comps.foldl
      (fun acc c =>
        if c = ".." then
          match acc with
          | [] => if rooted then [] else [".."]
          | x :: rest => if x = ".." then c :: x :: rest else rest
        else c :: acc) []
    let s := joinSlash resolved.reverse
    if rooted then "/" ++ s
    else if s = "" then "." else s

/-- Go path.Join on two elements: empty elements before the first non-empty
one are skipped, the rest are joined with a slash and cleaned. -/
def goPathJoin2 (a b : String) : String :=
  if a = "" then (if b = "" then "" else goPathClean b) else goPathClean (a ++ "/" ++ b)

def wellKnownSuffix : String := "/.well-known/openid-configuration"

/-- The path of the URL disco fetches: the provider URL path, with the
well-known suffix joined on unless the path already contains it. -/
def discoPath (upath : String) : String :=
  if strHasSub upath wellKnownSuffix then upath else goPathJoin2 upath wellKnownSuffix

inductive NewOauthResult where
  | ok : oauth → NewOauthResult
  | configError : String → NewOauthResult
  | crash : NewOauthResult

/-- newOauth (cmd.go lines 445-526).  The random generator results and the
parsed discovery document are parameters; discoDoc is consulted only on the
non-google branch when both explicit endpoints are empty, exactly as in the
source.  The two map lookups are checked for presence first, then the values
pass through unchecked Go type assertions to string (crash when not strings). -/
def newOauth (provider clientID clientSecret authzEp tokenEp scope prompt : String)
    (opts : options) (state challenge nonce : String)
    (discoDoc : List (String × JSON)) : NewOauthResult :=
  if provider = "google" then
    NewOauthResult.ok
      { provider := provider, clientID := clientID, clientSecret := clientSecret,
        scope := scope, prompt := prompt,
        authzEndpoint := "https://accounts.google.com/o/oauth2/v2/auth",
        tokenEndpoint := "https://www.googleapis.com/oauth2/v4/token",
        userInfoEndpoint := "https://www.googleapis.com/oauth2/v3/userinfo",
        loginHint := opts.Email, redirectURI := "",
        state := state, codeChallenge := challenge, nonce := nonce,
        implicit := opts.Implicit, CallbackListener := opts.CallbackListener,
        CallbackListenerURL := opts.CallbackListenerURL, CallbackPath := opts.CallbackPath,
        terminalRedirect := opts.TerminalRedirect, browser := opts.Browser }
  else
    if authzEp = "" ∧ tokenEp = "" then
      match discoDoc.lookup "authorization_endpoint" with
      | none => NewOauthResult.configError "missing 'authorization_endpoint' in provider metadata"
      | some aj =>
        match discoDoc.lookup "token_endpoint" with
        | none => NewOauthResult.configError "missing 'token_endpoint' in provider metadata"
        | some tj =>
          match aj, tj with
          | JSON.str aEp, JSON.str tEp =>
            NewOauthResult.ok
              { provider := provider, clientID := clientID, clientSecret := clientSecret,
                scope := scope, prompt := prompt,
                authzEndpoint := aEp, tokenEndpoint := tEp, userInfoEndpoint := tEp,
                loginHint := opts.Email, redirectURI := "",
                state := state, codeChallenge := challenge, nonce := nonce,
                implicit := opts.Implicit, CallbackListener := opts.CallbackListener,
                CallbackListenerURL := opts.CallbackListenerURL, CallbackPath := opts.CallbackPath,
                terminalRedirect := opts.TerminalRedirect, browser := opts.Browser }
          | _, _ => NewOauthResult.crash
    else
      NewOauthResult.ok
        { provider := provider, clientID := clientID, clientSecret := clientSecret,
          scope := scope, prompt := prompt,
          authzEndpoint := authzEp, tokenEndpoint := tokenEp, userInfoEndpoint := "",
          loginHint := opts.Email, redirectURI := "",
          state := state, codeChallenge := challenge, nonce := nonce,
          implicit := opts.Implicit, CallbackListener := opts.CallbackListener,
          CallbackListenerURL := opts.CallbackListenerURL, CallbackPath := opts.CallbackPath,
          terminalRedirect := opts.TerminalRedirect, browser := opts.Browser }

/-! The two pure session operations: the authorization URL query (Auth,
cmd.go lines 879-907) and the exchange form data (Exchange, lines 910-917).
Auth is modelled as the ordered list of query parameters it adds to the
authorization endpoint URL; Exchange as the form values it POSTs. -/

def qGet (q : List (String × String)) (k : String) : String := (q.lookup k).getD ""

def pkceChallenge (verifier : String) : String := b64urlNoPad (sha256 (utf8Encode verifier))

def Auth (o : oauth) : List (String × String) :=
  [("client_id", o.clientID), ("redirect_uri", o.redirectURI)] ++
  (if o.implicit then [("response_type", "id_token token")]
   else [("response_type", "code"), ("code_challenge_method", "S256"),
         ("code_challenge", pkceChallenge o.codeChallenge)]) ++
  [("scope", o.scope)] ++
  (if o.prompt ≠ "" then [("prompt", o.prompt)] else []) ++
  [("state", o.state), ("nonce", o.nonce)] ++
  (if o.loginHint ≠ "" then [("login_hint", o.loginHint)] else [])

def exchangeData (o : oauth) (code : String) : List (String × String) :=
  [("code", code), ("client_id", o.clientID), ("client_secret", o.clientSecret),
   ("redirect_uri", o.redirectURI), ("grant_type", "authorization_code"),
   ("code_verifier", o.codeChallenge)]

/-! The callback handler (ServeHTTP, cmd.go lines 779-831, and
implicitHandler, lines 833-876).  A request is its path plus parsed query;
url.Values.Get returns the first value for a key, or the empty string.  The
handler outcome records the HTTP status written, the at-most-one channel
write it performs, and the form data of the token-endpoint POST when
Exchange was invoked (none when no token-endpoint request was made).  The
network POST and JSON decode inside Exchange are an oracle mapping the form
data to either a transport or decode failure or a decoded token. -/

structure Request where
  path : String
  query : List (String × String)
deriving Repr, DecidableEq

inductive ChanWrite where
  | silent : ChanWrite
  | tokPush : token → ChanWrite
  | errPush : String → ChanWrite
deriving Repr, DecidableEq

structure HandlerResult where
  status : Nat
  write : ChanWrite
  posted : Option (List (String × String))
deriving Repr, DecidableEq

def implicitHandler (o : oauth) (q : List (String × String)) : HandlerResult :=
  if qGet q "urlhash" = "true" then
    let state := qGet q "state"
    if state = "" ∨ state ≠ o.state then
      ⟨400, ChanWrite.errPush "Failed to authenticate: missing or invalid state", none⟩
    else
      let accessToken := qGet q "access_token"
      if accessToken = "" then
        ⟨400, ChanWrite.errPush "Failed to authenticate: missing access token", none⟩
      else
        ⟨if o.terminalRedirect ≠ "" then 302 else 200,
         ChanWrite.tokPush
           { AccessToken := accessToken, IDToken := qGet q "id_token",
             RefreshToken := qGet q "refresh_token",
             ExpiresIn := (goAtoi (qGet q "expires_in")).1,
             TokenType := qGet q "token_type", Err := "", ErrDesc := "" },
         none⟩
  else
    ⟨200, ChanWrite.silent, none⟩

def ServeHTTP (o : oauth) (post : List (String × String) → Except String token)
    (req : Request) : HandlerResult :=
  if req.path ≠ o.CallbackPath then ⟨404, ChanWrite.silent, none⟩
  else
    let q := req.query
    let errStr := qGet q "error"
    if errStr ≠ "" then ⟨400, ChanWrite.errPush ("Failed to authenticate: " ++ errStr), none⟩
    else if o.implicit then implicitHandler o q
    else
      let code := qGet q "code"
      let state := qGet q "state"
      if code = "" ∨ state = "" then ⟨400, ChanWrite.silent, none⟩
      else if code = "" then
        ⟨400, ChanWrite.errPush "Failed to authenticate: missing or invalid code", none⟩
      else if state = "" ∨ state ≠ o.state then
        ⟨400, ChanWrite.errPush "Failed to authenticate: missing or invalid state", none⟩
      else
        let dat := exchangeData o code
        match post dat with
        | Except.error e =>
          ⟨400, ChanWrite.errPush ("Failed exchanging authorization code: " ++ e), some dat⟩
        | Except.ok tok =>
          if tok.Err ≠ "" ∨ tok.ErrDesc ≠ "" then
            ⟨400,
             ChanWrite.errPush
               ("Failed exchanging authorization code: " ++ tok.Err ++ ". " ++ tok.ErrDesc),
             some dat⟩
          else if o.terminalRedirect ≠ "" then ⟨302, ChanWrite.tokPush tok, some dat⟩
          else ⟨200, ChanWrite.tokPush tok, some dat⟩

/-! The four flow strategies.  External effects enter as parameters: the
select outcome of the loopback wait, the code typed at the terminal, the
POST oracle, the PEM / PKCS8 decode results, and the JWS signer (which, per
the jose interface, produces a compact-serialized JWT from the key, the
header carrying kid, and the claim set; the key itself is abstracted into
the oracle). -/

def loopbackTimeoutSeconds : Nat := 2 * 60

def timeoutErrMsg : String := "oauth command timed out, please try again"

inductive WaitOutcome where
  | gotToken : token → WaitOutcome
  | gotErr : String → WaitOutcome
  | timeout : WaitOutcome
deriving Repr, DecidableEq

structure LoopbackRun where
  result : Except String token
  listenerClosed : Bool
deriving Repr

/-- DoLoopbackAuthorization (cmd.go lines 592-634) from the point the
callback server exists: srv.Close is deferred, so it runs on every exit path;
the function then blocks on the select over the token channel, the error
channel and the 2-minute timer, whose outcome is the parameter. -/
def DoLoopbackAuthorization (authResult : Except String String)
    (outcome : WaitOutcome) : LoopbackRun :=
  match authResult with
  | Except.error e => ⟨Except.error e, true⟩
  | Except.ok _ =>
    match outcome with
    | WaitOutcome.gotToken t => ⟨Except.ok t, true⟩
    | WaitOutcome.gotErr e => ⟨Except.error e, true⟩
    | WaitOutcome.timeout => ⟨Except.error timeoutErrMsg, true⟩

/-- DoManualAuthorization (cmd.go lines 639-666): redirect URI is the
out-of-band URN, the typed code is exchanged, and a decoded token carrying
error fields is converted to a failure. -/
def DoManualAuthorization (o : oauth) (code : String)
    (post : List (String × String) → Except String token) : Except String token :=
  let o2 := { o with redirectURI := oobCallbackUrn }
  match post (exchangeData o2 code) with
  | Except.error e => Except.error e
  | Except.ok tok =>
    if tok.Err ≠ "" ∨ tok.ErrDesc ≠ "" then
      Except.error ("Error exchanging authorization code: " ++ tok.Err ++ ". " ++ tok.ErrDesc)
    else Except.ok tok

def twoLeggedClaims (tokenEndpoint : String) (now : Int) (issuer scope : String) :
    List (String × JSON) :=
  [("aud", JSON.str tokenEndpoint), ("nbf", JSON.num now), ("iat", JSON.num now),
   ("exp", JSON.num (now + 3600)), ("iss", JSON.str issuer), ("scope", JSON.str scope)]

structure JWTRequest where
  headerTyp : String
  headerKid : String
  alg : String
  claims : List (String × JSON)
  postURL : String
  postParams : List (String × String)

/-- The request-construction part of DoTwoLeggedAuthorization (cmd.go lines
670-714): PEM block decode and PKCS8 parse results are parameters; on
success the claim set, RS256 signer header with kid = client id, and the
form-encoded POST of the assertion are produced. -/
def DoTwoLeggedAuthorization (o : oauth) (issuer : String) (now : Int)
    (pemBlockOk keyParseOk : Bool)
    (sign : String → List (String × JSON) → String) : Except String JWTRequest :=
  if pemBlockOk = false then Except.error "failed to read private key pem block"
  else if keyParseOk = false then Except.error "error parsing private key"
  else
    let c := twoLeggedClaims o.tokenEndpoint now issuer o.scope
    let raw := sign o.clientID c
    Except.ok
      { headerTyp := "JWT", headerKid := o.clientID, alg := "RS256", claims := c,
        postURL := o.tokenEndpoint,
        postParams := [("assertion", raw), ("grant_type", jwtBearerUrn)] }

/-- The response part of DoTwoLeggedAuthorization (cmd.go lines 716-728):
the POST response body is JSON-decoded into a token which is returned as-is;
no inspection of its error fields happens here. -/
def twoLeggedFinish (o : oauth) (issuer : String) (now : Int)
    (pemBlockOk keyParseOk : Bool) (sign : String → List (String × JSON) → String)
    (respDecode : Except String token) : Except String token :=
  match DoTwoLeggedAuthorization o issuer now pemBlockOk keyParseOk sign with
  | Except.error e => Except.error e
  | Except.ok _ => respDecode

/-- DoJWTAuthorization (cmd.go lines 733-775): same key handling, claims
with aud and sub = iss, no network call; the signed JWT is returned directly
as the access token of a locally built token value. -/
def DoJWTAuthorization (o : oauth) (issuer aud : String) (now : Int)
    (pemBlockOk keyParseOk : Bool)
    (sign : String → List (String × JSON) → String) : Except String token :=
  if pemBlockOk = false then Except.error "failed to read private key pem block"
  else if keyParseOk = false then Except.error "error parsing private key"
  else
    let c : List (String × JSON) :=
      [("aud", JSON.str aud), ("nbf", JSON.num now), ("iat", JSON.num now),
       ("exp", JSON.num (now + 3600)), ("iss", JSON.str issuer), ("sub", JSON.str issuer)]
    Except.ok
      { AccessToken := sign o.clientID c, IDToken := "", RefreshToken := "",
        ExpiresIn := 3600, TokenType := "Bearer", Err := "", ErrDesc := "" }

/-! The tail of oauthCmd (cmd.go lines 344-385): the selected flow's result
either aborts the command with its error, or the token is printed and the
command returns nil (process exit status 0). -/

inductive CmdOutcome where
  | success : token → CmdOutcome
  | failure : String → CmdOutcome
deriving Repr, DecidableEq

def oauthCmdFinish (flowResult : Except String token) : CmdOutcome :=
  match flowResult with
  | Except.error e => CmdOutcome.failure e
  | Except.ok t => CmdOutcome.success t

/-! Concrete fixtures used by witnesses and counterexamples. -/

def oEx : oauth :=
  { provider := "https://idp.example", clientID := "cid", clientSecret := "sec",
    scope := "openid email", prompt := "", loginHint := "",
    redirectURI := "http://127.0.0.1:5555",
    tokenEndpoint := "https://idp.example/token",
    authzEndpoint := "https://idp.example/authorize",
    userInfoEndpoint := "", state := "STATE123", codeChallenge := "VERIFIER",
    nonce := "NONCE", implicit := false, CallbackListener := "",
    CallbackListenerURL := "", CallbackPath := "/", terminalRedirect := "", browser := "" }

def oImpEx : oauth := { oEx with implicit := true, state := "S" }

def noNet : List (String × String) → Except String token := fun _ => Except.error "no network"

def errTok : token :=
  { AccessToken := "", IDToken := "", RefreshToken := "", ExpiresIn := 0,
    TokenType := "", Err := "access_denied", ErrDesc := "" }

def signEx : String → List (String × JSON) → String := fun _ _ => "h.p.s"

/-- Reduction of ServeHTTP to its authorization-code branch when the path
matches, the query carries no error parameter, and the flow is not implicit. -/
theorem serveReduce (o : oauth) (post : List (String × String) → Except String token)
    (req : Request) (hpath : req.path = o.CallbackPath)
    (herr : qGet req.query "error" = "") (himp : o.implicit = false) :
    ServeHTTP o post req =
      (if qGet req.query "code" = "" ∨ qGet req.query "state" = "" then
        ⟨400, ChanWrite.silent, none⟩
      else if qGet req.query "code" = "" then
        ⟨400, ChanWrite.errPush "Failed to authenticate: missing or invalid code", none⟩
      else if qGet req.query "state" = "" ∨ qGet req.query "state" ≠ o.state then
        ⟨400, ChanWrite.errPush "Failed to authenticate: missing or invalid state", none⟩
      else
        match post (exchangeData o (qGet req.query "code")) with
        | Except.error e =>
          ⟨400, ChanWrite.errPush ("Failed exchanging authorization code: " ++ e),
           some (exchangeData o (qGet req.query "code"))⟩
        | Except.ok tok =>
          if tok.Err ≠ "" ∨ tok.ErrDesc ≠ "" then
            ⟨400,
             ChanWrite.errPush
               ("Failed exchanging authorization code: " ++ tok.Err ++ ". " ++ tok.ErrDesc),
             some (exchangeData o (qGet req.query "code"))⟩
          else if o.terminalRedirect ≠ "" then
            ⟨302, ChanWrite.tokPush tok, some (exchangeData o (qGet req.query "code"))⟩
          else ⟨200, ChanWrite.tokPush tok, some (exchangeData o (qGet req.query "code"))⟩) := by
  simp only [ServeHTTP, hpath, herr, himp, ne_eq, not_true_eq_false, if_false,
    Bool.false_eq_true]

/-- C3: for every non-implicit callback request on the configured path
without an error parameter, if the code or the state query parameter is
missing, the handler responds 400 and writes to neither the token channel
nor the error channel (and makes no token-endpoint request), so the
orchestrator keeps waiting. -/
theorem C3_missing_code_or_state_waits (o : oauth)
    (post : List (String × String) → Except String token) (req : Request)
    (himp : o.implicit = false) (hpath : req.path = o.CallbackPath)
    (herr : qGet req.query "error" = "")
    (hmiss : qGet req.query "code" = "" ∨ qGet req.query "state" = "") :
    ServeHTTP o post req = ⟨400, ChanWrite.silent, none⟩ := by
  rw [serveReduce o post req hpath herr himp, if_pos hmiss]

/-- Witness for C3 at a concrete request missing the code parameter. -/
theorem C3_witness :
    ServeHTTP oEx noNet ⟨"/", [("state", "STATE123")]⟩ = ⟨400, ChanWrite.silent, none⟩ :=
  C3_missing_code_or_state_waits oEx noNet ⟨"/", [("state", "STATE123")]⟩ rfl rfl rfl
    (Or.inl rfl)

/-- C2 (amended): a callback on the configured path with a non-empty code and
a NON-EMPTY state differing from the session state is answered 400 with an
error-channel push and no token-endpoint request; a callback whose state
parameter is empty instead falls into the malformed-callback branch, which
responds 400 but pushes to no channel. -/
theorem C2_state_mismatch_rejected (o : oauth)
    (post : List (String × String) → Except String token) (req : Request)
    (himp : o.implicit = false) (hpath : req.path = o.CallbackPath)
    (herr : qGet req.query "error" = "") (hcode : qGet req.query "code" ≠ "") :
    (qGet req.query "state" ≠ "" → qGet req.query "state" ≠ o.state →
      ServeHTTP o post req =
        ⟨400, ChanWrite.errPush "Failed to authenticate: missing or invalid state", none⟩) ∧
    (qGet req.query "state" = "" →
      ServeHTTP o post req = ⟨400, ChanWrite.silent, none⟩) := by
  constructor
  · intro hne hmis
    rw [serveReduce o post req hpath herr himp,
      if_neg (by simp [hcode, hne]), if_neg hcode, if_pos (Or.inr hmis)]
  · intro hempty
    rw [serveReduce o post req hpath herr himp, if_pos (Or.inr hempty)]

/-- Witness for C2 at a concrete request with a wrong non-empty state. -/
theorem C2_witness :
    ServeHTTP oEx noNet ⟨"/", [("code", "abc"), ("state", "WRONG")]⟩ =
      ⟨400, ChanWrite.errPush "Failed to authenticate: missing or invalid state", none⟩ :=
  (C2_state_mismatch_rejected oEx noNet ⟨"/", [("code", "abc"), ("state", "WRONG")]⟩
    rfl rfl rfl (by decide)).1 (by decide) (by decide)

/-- Counterexample for C2 as stated: a callback carrying a non-empty code and
an (empty-valued) state parameter — state differing from the session's
"STATE123" — is answered 400 with NO error-channel push, where the claim
requires a push onto the error channel. -/
theorem C2_counterexample :
    ServeHTTP oEx noNet ⟨"/", [("code", "abc"), ("state", "")]⟩ =
      ⟨400, ChanWrite.silent, none⟩ := rfl

/-- Classification of the values Go Atoi returns together with a non-nil
error: zero on a syntax error, and a saturated 64-bit bound on a range
error. -/
theorem goAtoiCoreFalseCases (neg : Bool) (ds : List Char) :
    (goAtoiCore neg ds).2 = false →
    (goAtoiCore neg ds).1 = 0 ∨ (goAtoiCore neg ds).1 = maxInt64 ∨
      (goAtoiCore neg ds).1 = minInt64 := by
  intro h
  by_cases he : ds.isEmpty
  · simp [goAtoiCore, he]
  · rcases hpd : parseDecDigits ds with _ | n
    · simp [goAtoiCore, he, hpd]
    · cases neg with
      | false =>
        by_cases hb : (n : Int) ≤ maxInt64
        · exfalso
          simp [goAtoiCore, he, hpd, hb] at h
        · simp [goAtoiCore, he, hpd, hb]
      | true =>
        by_cases hb : (n : Int) ≤ 9223372036854775808
        · exfalso
          simp [goAtoiCore, he, hpd, hb] at h
        · simp [goAtoiCore, he, hpd, hb]

theorem goAtoiFalseCases (s : String) :
    (goAtoi s).2 = false →
    (goAtoi s).1 = 0 ∨ (goAtoi s).1 = maxInt64 ∨ (goAtoi s).1 = minInt64 := by
  unfold goAtoi
  cases hd : s.data with
  | nil => intro _; simp
  | cons c rest =>
    simp only
    split_ifs
    · exact goAtoiCoreFalseCases true rest
    · exact goAtoiCoreFalseCases false rest
    · exact goAtoiCoreFalseCases false (c :: rest)

/-- C9 (amended): an implicit-flow callback carrying urlhash=true with the
session's state and a non-empty access_token pushes a Token whose fields are
the corresponding query parameters and whose ExpiresIn is the VALUE component
of Go Atoi applied to expires_in — zero when parsing fails syntactically, but
the saturated 64-bit bound (not zero) when the value is out of range; a state
mismatch or a missing access_token is answered 400 with an error push. -/
theorem C9_implicit_callback_token :
    (∀ (o : oauth) (q : List (String × String)),
      qGet q "urlhash" = "true" → qGet q "state" = o.state → o.state ≠ "" →
      qGet q "access_token" ≠ "" → o.terminalRedirect = "" →
      implicitHandler o q =
        ⟨200,
         ChanWrite.tokPush
           { AccessToken := qGet q "access_token", IDToken := qGet q "id_token",
             RefreshToken := qGet q "refresh_token",
             ExpiresIn := (goAtoi (qGet q "expires_in")).1,
             TokenType := qGet q "token_type", Err := "", ErrDesc := "" },
         none⟩) ∧
    (∀ (o : oauth) (q : List (String × String)),
      qGet q "urlhash" = "true" →
      (qGet q "state" = "" ∨ qGet q "state" ≠ o.state) →
      implicitHandler o q =
        ⟨400, ChanWrite.errPush "Failed to authenticate: missing or invalid state", none⟩) ∧
    (∀ (o : oauth) (q : List (String × String)),
      qGet q "urlhash" = "true" → qGet q "state" = o.state → o.state ≠ "" →
      qGet q "access_token" = "" →
      implicitHandler o q =
        ⟨400, ChanWrite.errPush "Failed to authenticate: missing access token", none⟩) ∧
    (∀ s : String, (goAtoi s).2 = false →
      (goAtoi s).1 = 0 ∨ (goAtoi s).1 = maxInt64 ∨ (goAtoi s).1 = minInt64) := by
  refine ⟨?_, ?_, ?_, goAtoiFalseCases⟩
  · intro o q hhash hstate hne hat hnored
    rw [implicitHandler, if_pos hhash,
      if_neg (by rw [hstate]; simp [hne]), if_neg hat]
    simp [hnored]
  · intro o q hhash hbad
    rw [implicitHandler, if_pos hhash, if_pos hbad]
  · intro o q hhash hstate hne hat
    rw [implicitHandler, if_pos hhash, if_neg (by rw [hstate]; simp [hne]), if_pos hat]

/-- Witness for C9: the spec scenario — fragment promoted via urlhash with
access_token AT1, token_type Bearer, expires_in 3600 and the session state —
pushes Token with AccessToken AT1, TokenType Bearer, ExpiresIn 3600. -/
theorem C9_witness :
    implicitHandler oImpEx
      [("urlhash", "true"), ("access_token", "AT1"), ("token_type", "Bearer"),
       ("expires_in", "3600"), ("state", "S")] =
      ⟨200, ChanWrite.tokPush ⟨"AT1", "", "", 3600, "Bearer", "", ""⟩, none⟩ :=
  (C9_implicit_callback_token.1 oImpEx
    [("urlhash", "true"), ("access_token", "AT1"), ("token_type", "Bearer"),
     ("expires_in", "3600"), ("state", "S")]
    rfl rfl (by decide) (by decide) rfl).trans rfl

/-- Counterexample for C9 as stated: with expires_in out of 64-bit range, Go
Atoi reports a parse failure yet returns the saturated bound, so the pushed
Token carries ExpiresIn 9223372036854775807, not the zero the claim requires
on parse failure. -/
theorem C9_counterexample :
    implicitHandler oImpEx
      [("urlhash", "true"), ("access_token", "AT1"),
       ("expires_in", "9223372036854775808"), ("state", "S")] =
      ⟨200, ChanWrite.tokPush ⟨"AT1", "", "", 9223372036854775807, "", "", ""⟩, none⟩ ∧
    (goAtoi "9223372036854775808").2 = false ∧
    (9223372036854775807 : Int) ≠ 0 :=
  ⟨rfl, rfl, by decide⟩

/-- C1 (amended): in the loopback flow the callback handler converts a
decoded token carrying error fields into an error-channel push (never a
token push), and the manual flow converts it into a returned error, so in
those flows it never surfaces as success; the signed-JWT flow only builds
tokens with empty error fields; but the two-legged flow returns the decoded
token unchecked, so there a token carrying a non-empty error field reaches
the top-level command as a success. -/
theorem C1_error_token_handling :
    (∀ (o : oauth) (post : List (String × String) → Except String token)
       (req : Request) (tk : token),
      o.implicit = false → req.path = o.CallbackPath → qGet req.query "error" = "" →
      qGet req.query "code" ≠ "" → qGet req.query "state" ≠ "" →
      qGet req.query "state" = o.state →
      post (exchangeData o (qGet req.query "code")) = Except.ok tk →
      tk.Err ≠ "" ∨ tk.ErrDesc ≠ "" →
      ServeHTTP o post req =
        ⟨400,
         ChanWrite.errPush
           ("Failed exchanging authorization code: " ++ tk.Err ++ ". " ++ tk.ErrDesc),
         some (exchangeData o (qGet req.query "code"))⟩) ∧
    (∀ (o : oauth) (code : String)
       (post : List (String × String) → Except String token) (tk : token),
      post (exchangeData { o with redirectURI := oobCallbackUrn } code) = Except.ok tk →
      tk.Err ≠ "" ∨ tk.ErrDesc ≠ "" →
      oauthCmdFinish (DoManualAuthorization o code post) =
        CmdOutcome.failure
          ("Error exchanging authorization code: " ++ tk.Err ++ ". " ++ tk.ErrDesc)) ∧
    (∀ (o : oauth) (issuer : String) (now : Int)
       (sign : String → List (String × JSON) → String) (tk : token),
      oauthCmdFinish (twoLeggedFinish o issuer now true true sign (Except.ok tk)) =
        CmdOutcome.success tk) ∧
    (∀ (o : oauth) (issuer aud : String) (now : Int)
       (sign : String → List (String × JSON) → String) (t : token),
      DoJWTAuthorization o issuer aud now true true sign = Except.ok t →
      t.Err = "" ∧ t.ErrDesc = "") := by
  refine ⟨?_, ?_, ?_, ?_⟩
  · intro o post req tk himp hpath herr hcode hstne hsteq hpost herrtok
    rw [serveReduce o post req hpath herr himp,
      if_neg (by simp [hcode, hstne]), if_neg hcode,
      if_neg (by push_neg; exact ⟨hstne, hsteq⟩)]
    simp only [hpost]
    rw [if_pos herrtok]
  · intro o code post tk hpost herrtok
    rw [DoManualAuthorization]
    simp only [hpost]
    rw [if_pos herrtok]
    rfl
  · intro o issuer now sign tk
    rfl
  · intro o issuer aud now sign t h
    rw [DoJWTAuthorization] at h
    simp only [Bool.true_eq_false, if_false, Except.ok.injEq] at h
    rw [← h]
    exact ⟨rfl, rfl⟩

/-- Witness for C1: a provider-error token arriving at the loopback callback
handler is pushed onto the error channel, not the token channel. -/
theorem C1_witness :
    ServeHTTP oEx (fun _ => Except.ok errTok)
      ⟨"/", [("code", "abc"), ("state", "STATE123")]⟩ =
      ⟨400, ChanWrite.errPush "Failed exchanging authorization code: access_denied. ",
       some (exchangeData oEx "abc")⟩ :=
  (C1_error_token_handling.1 oEx (fun _ => Except.ok errTok)
    ⟨"/", [("code", "abc"), ("state", "STATE123")]⟩ errTok
    rfl rfl rfl (by decide) (by decide) rfl rfl (Or.inl (by decide))).trans rfl

/-- Counterexample for C1 as stated: in the two-legged flow a decoded token
with error field access_denied is returned to the caller and the top-level
command finishes successfully with it, where the claim requires a non-zero
exit instead. -/
theorem C1_counterexample :
    oauthCmdFinish
      (twoLeggedFinish oEx "svc@example.iam" 1700000000 true true signEx
        (Except.ok errTok)) = CmdOutcome.success errTok ∧
    errTok.Err = "access_denied" :=
  ⟨rfl, rfl⟩

/-- C7: once the loopback flow reaches its select, the deferred server close
runs on every exit path, and on the timeout branch (the 2-minute timer, no
channel delivery) the flow returns the timeout error and no token. -/
theorem C7_timeout_returns_error_and_closes (authResult : Except String String)
    (outcome : WaitOutcome) :
    (DoLoopbackAuthorization authResult outcome).listenerClosed = true ∧
    (∀ u : String, authResult = Except.ok u → outcome = WaitOutcome.timeout →
      (DoLoopbackAuthorization authResult outcome).result = Except.error timeoutErrMsg) ∧
    loopbackTimeoutSeconds = 120 := by
  refine ⟨?_, ?_, rfl⟩
  · cases authResult with
    | error e => rfl
    | ok u => cases outcome <;> rfl
  · intro u hu hto
    rw [hu, hto]
    rfl

/-- Witness for C7 at the timeout outcome of a run whose authorization URL
was built successfully. -/
theorem C7_witness :
    (DoLoopbackAuthorization (Except.ok "https://idp.example/authorize?x")
        WaitOutcome.timeout).listenerClosed = true ∧
    (DoLoopbackAuthorization (Except.ok "https://idp.example/authorize?x")
        WaitOutcome.timeout).result = Except.error timeoutErrMsg :=
  ⟨(C7_timeout_returns_error_and_closes (Except.ok "https://idp.example/authorize?x")
      WaitOutcome.timeout).1,
   (C7_timeout_returns_error_and_closes (Except.ok "https://idp.example/authorize?x")
      WaitOutcome.timeout).2.1 "https://idp.example/authorize?x" rfl rfl⟩

set_option maxRecDepth 10000 in
/-- Sanity check of the embedded hash and encoding against the published
SHA-256 test vector for the three-byte message abc. -/
theorem sha256_vector_abc :
    b64urlNoPad (sha256 (utf8Encode "abc")) =
      "ungWv48Bz-pBQUDeXa4iI7ADYaOWF3qctBD_YfIAFa0" := by decide

/-- C4: in the non-implicit flow, the code_challenge query parameter of the
built authorization URL is the base64url-no-padding SHA-256 digest of the
generated verifier, the code_verifier form field sent by Exchange is that
same raw verifier, and recomputing the challenge from the verifier sent at
exchange time reproduces the challenge in the authorization URL exactly. -/
theorem C4_pkce_round_trip (o : oauth) (code : String) (himp : o.implicit = false) :
    qGet (Auth o) "code_challenge" = pkceChallenge o.codeChallenge ∧
    qGet (exchangeData o code) "code_verifier" = o.codeChallenge ∧
    pkceChallenge (qGet (exchangeData o code) "code_verifier") =
      qGet (Auth o) "code_challenge" ∧
    pkceChallenge o.codeChallenge = b64urlNoPad (sha256 (utf8Encode o.codeChallenge)) := by
  have h1 : qGet (Auth o) "code_challenge" = pkceChallenge o.codeChallenge := by
    simp [Auth, qGet, himp, List.lookup]
  have h2 : qGet (exchangeData o code) "code_verifier" = o.codeChallenge := by
    simp [exchangeData, qGet, List.lookup]
  exact ⟨h1, h2, by rw [h2, h1], rfl⟩

/-- Witness for C4 at a concrete session. -/
theorem C4_witness :
    qGet (Auth oEx) "code_challenge" = pkceChallenge oEx.codeChallenge ∧
    qGet (exchangeData oEx "c0d3") "code_verifier" = oEx.codeChallenge ∧
    pkceChallenge (qGet (exchangeData oEx "c0d3") "code_verifier") =
      qGet (Auth oEx) "code_challenge" ∧
    pkceChallenge oEx.codeChallenge = b64urlNoPad (sha256 (utf8Encode oEx.codeChallenge)) :=
  C4_pkce_round_trip oEx "c0d3" rfl

/-- C5 evaluated at failing inputs: an account file whose JSON has neither an
installed key nor type service_account makes oauthCmd return the value of
pkg/errors Wrapf applied to the nil ambient error, which is nil — so the
command returns early with a NIL error (exit status 0, no flow run), not the
non-nil ConfigError the claim requires. -/
theorem C5_unsupported_account_nil_error :
    processAccount [("type", JSON.str "user")] "account.json" =
      CmdExit.earlyReturn none ∧
    processAccount [("foo", JSON.num 1)] "account.json" =
      CmdExit.earlyReturn none ∧
    wrapf none "error reading account.json: unsupported account type" = none :=
  ⟨rfl, rfl, rfl⟩

def optsEx : options :=
  { Provider := "https://idp.example", Email := "", Console := false, Implicit := false,
    CallbackListener := "", CallbackListenerURL := "", CallbackPath := "/",
    TerminalRedirect := "", Browser := "" }

def discoDocEx : List (String × JSON) :=
  [("authorization_endpoint", JSON.str "https://idp.example/authorize"),
   ("token_endpoint", JSON.str "https://idp.example/token")]

/-- C6: for a non-google provider with no explicit endpoints, discovery
fetches the provider URL with the well-known suffix joined onto its path
exactly when the path does not already contain it; a discovery document
lacking authorization_endpoint or token_endpoint fails with the
corresponding ConfigError; and when both are present as strings the built
flow configuration carries those two values verbatim. -/
theorem C6_discovery_config (provider clientID clientSecret scope prompt : String)
    (opts : options) (st ch non : String) (discoDoc : List (String × JSON))
    (hprov : provider ≠ "google") :
    (∀ p : String, strHasSub p wellKnownSuffix = true → discoPath p = p) ∧
    (∀ p : String, strHasSub p wellKnownSuffix = false →
      discoPath p = goPathJoin2 p wellKnownSuffix) ∧
    (discoDoc.lookup "authorization_endpoint" = none →
      newOauth provider clientID clientSecret "" "" scope prompt opts st ch non discoDoc =
        NewOauthResult.configError "missing 'authorization_endpoint' in provider metadata") ∧
    (∀ aj : JSON, discoDoc.lookup "authorization_endpoint" = some aj →
      discoDoc.lookup "token_endpoint" = none →
      newOauth provider clientID clientSecret "" "" scope prompt opts st ch non discoDoc =
        NewOauthResult.configError "missing 'token_endpoint' in provider metadata") ∧
    (∀ aEp tEp : String,
      discoDoc.lookup "authorization_endpoint" = some (JSON.str aEp) →
      discoDoc.lookup "token_endpoint" = some (JSON.str tEp) →
      ∃ o2 : oauth,
        newOauth provider clientID clientSecret "" "" scope prompt opts st ch non discoDoc =
          NewOauthResult.ok o2 ∧ o2.authzEndpoint = aEp ∧ o2.tokenEndpoint = tEp) := by
  refine ⟨?_, ?_, ?_, ?_, ?_⟩
  · intro p hp
    rw [discoPath, if_pos hp]
  · intro p hp
    rw [discoPath, if_neg (by rw [hp]; exact Bool.false_ne_true)]
  · intro hla
    simp only [newOauth, if_neg hprov, hla]
    simp
  · intro aj hla hlt
    simp only [newOauth, if_neg hprov, hla, hlt]
    simp
  · intro aEp tEp hla hlt
    have hok :
        newOauth provider clientID clientSecret "" "" scope prompt opts st ch non discoDoc =
          NewOauthResult.ok
            { provider := provider, clientID := clientID, clientSecret := clientSecret,
              scope := scope, prompt := prompt,
              authzEndpoint := aEp, tokenEndpoint := tEp, userInfoEndpoint := tEp,
              loginHint := opts.Email, redirectURI := "",
              state := st, codeChallenge := ch, nonce := non,
              implicit := opts.Implicit, CallbackListener := opts.CallbackListener,
              CallbackListenerURL := opts.CallbackListenerURL,
              CallbackPath := opts.CallbackPath,
              terminalRedirect := opts.TerminalRedirect, browser := opts.Browser } := by
      simp only [newOauth, if_neg hprov, hla, hlt]
      simp
    exact ⟨_, hok, rfl, rfl⟩

/-- Witness for C6: the spec scenario — provider https://idp.example (URL
path empty, so the suffix is appended) with a discovery document holding the
two endpoints — yields exactly those endpoints in the built configuration. -/
theorem C6_witness :
    discoPath "" = goPathJoin2 "" wellKnownSuffix ∧
    goPathJoin2 "" wellKnownSuffix = "/.well-known/openid-configuration" ∧
    (∃ o2 : oauth,
      newOauth "https://idp.example" "cid" "sec" "" "" "openid email" "" optsEx
          "S" "V" "N" discoDocEx = NewOauthResult.ok o2 ∧
        o2.authzEndpoint = "https://idp.example/authorize" ∧
        o2.tokenEndpoint = "https://idp.example/token") :=
  ⟨(C6_discovery_config "https://idp.example" "cid" "sec" "openid email" "" optsEx
      "S" "V" "N" discoDocEx (by decide)).2.1 "" (by decide),
   by decide,
   (C6_discovery_config "https://idp.example" "cid" "sec" "openid email" "" optsEx
      "S" "V" "N" discoDocEx (by decide)).2.2.2.2
     "https://idp.example/authorize" "https://idp.example/token" rfl rfl⟩

/-- C8: with a decodable PKCS8 PEM key, the two-legged authorization signs an
RS256 compact JWT whose header kid is the configured client id, whose claim
set is exactly aud = token endpoint, nbf = iat = now, exp = now + 3600,
iss = issuer and scope = configured scope (and nothing else), and POSTs it
form-encoded to the token endpoint as assertion together with the jwt-bearer
grant type URN. -/
theorem C8_two_legged_jwt (o : oauth) (issuer : String) (now : Int)
    (sign : String → List (String × JSON) → String) :
    DoTwoLeggedAuthorization o issuer now true true sign =
      Except.ok
        { headerTyp := "JWT", headerKid := o.clientID, alg := "RS256",
          claims := twoLeggedClaims o.tokenEndpoint now issuer o.scope,
          postURL := o.tokenEndpoint,
          postParams :=
            [("assertion",
              sign o.clientID (twoLeggedClaims o.tokenEndpoint now issuer o.scope)),
             ("grant_type", jwtBearerUrn)] } ∧
    (twoLeggedClaims o.tokenEndpoint now issuer o.scope).lookup "aud" =
      some (JSON.str o.tokenEndpoint) ∧
    (twoLeggedClaims o.tokenEndpoint now issuer o.scope).lookup "nbf" =
      some (JSON.num now) ∧
    (twoLeggedClaims o.tokenEndpoint now issuer o.scope).lookup "iat" =
      some (JSON.num now) ∧
    (twoLeggedClaims o.tokenEndpoint now issuer o.scope).lookup "exp" =
      some (JSON.num (now + 3600)) ∧
    (twoLeggedClaims o.tokenEndpoint now issuer o.scope).lookup "iss" =
      some (JSON.str issuer) ∧
    (twoLeggedClaims o.tokenEndpoint now issuer o.scope).lookup "scope" =
      some (JSON.str o.scope) ∧
    (∀ k : String, k ∉ (["aud", "nbf", "iat", "exp", "iss", "scope"] : List String) →
      (twoLeggedClaims o.tokenEndpoint now issuer o.scope).lookup k = none) ∧
    jwtBearerUrn = "urn:ietf:params:oauth:grant-type:jwt-bearer" := by
  refine ⟨rfl, rfl, rfl, rfl, rfl, rfl, rfl, ?_, rfl⟩
  intro k hk
  simp only [List.mem_cons, List.not_mem_nil, or_false, not_or] at hk
  obtain ⟨h1, h2, h3, h4, h5, h6⟩ := hk
  have b1 : (k == "aud") = false := beq_eq_false_iff_ne.mpr h1
  have b2 : (k == "nbf") = false := beq_eq_false_iff_ne.mpr h2
  have b3 : (k == "iat") = false := beq_eq_false_iff_ne.mpr h3
  have b4 : (k == "exp") = false := beq_eq_false_iff_ne.mpr h4
  have b5 : (k == "iss") = false := beq_eq_false_iff_ne.mpr h5
  have b6 : (k == "scope") = false := beq_eq_false_iff_ne.mpr h6
  simp [twoLeggedClaims, List.lookup, b1, b2, b3, b4, b5, b6]

/-- Witness for C8: the spec scenario with issuer svc@example.iam at a fixed
clock instant. -/
theorem C8_witness :
    DoTwoLeggedAuthorization oEx "svc@example.iam" 1700000000 true true signEx =
      Except.ok
        { headerTyp := "JWT", headerKid := oEx.clientID, alg := "RS256",
          claims := twoLeggedClaims oEx.tokenEndpoint 1700000000 "svc@example.iam" oEx.scope,
          postURL := oEx.tokenEndpoint,
          postParams :=
            [("assertion",
              signEx oEx.clientID
                (twoLeggedClaims oEx.tokenEndpoint 1700000000 "svc@example.iam" oEx.scope)),
             ("grant_type", jwtBearerUrn)] } ∧
    (twoLeggedClaims oEx.tokenEndpoint 1700000000 "svc@example.iam" oEx.scope).lookup "kid" =
      none :=
  ⟨(C8_two_legged_jwt oEx "svc@example.iam" 1700000000 signEx).1,
   (C8_two_legged_jwt oEx "svc@example.iam" 1700000000 signEx).2.2.2.2.2.2.2.1
     "kid" (by decide)⟩

/-- C10: an account file with an installed key succeeds exactly when
installed is an object whose auth_uri, token_uri, client_id and
client_secret are all present as strings; any other shape of those fields
makes the command crash through an unchecked Go type assertion rather than
return a ConfigError — and correspondingly for the service_account shape
with its auth_uri, token_uri, private_key_id, private_key and client_email
fields. -/
theorem C10_account_shape_assertions :
    (∀ (account : List (String × JSON)) (f : String) (details : List (String × JSON)),
      account.lookup "installed" = some (JSON.obj details) →
      ((∀ a t ci cs : String,
        strField details "auth_uri" = some a → strField details "token_uri" = some t →
        strField details "client_id" = some ci → strField details "client_secret" = some cs →
        processAccount account f = CmdExit.cont ⟨a, t, ci, cs, "", false⟩) ∧
       ((strField details "auth_uri" = none ∨ strField details "token_uri" = none ∨
         strField details "client_id" = none ∨ strField details "client_secret" = none) →
        processAccount account f = CmdExit.crash))) ∧
    (∀ (account : List (String × JSON)) (f : String) (j : JSON),
      account.lookup "installed" = some j → (∀ d, j ≠ JSON.obj d) →
      processAccount account f = CmdExit.crash) ∧
    (∀ (account : List (String × JSON)) (f : String),
      account.lookup "installed" = none →
      account.lookup "type" = some (JSON.str "service_account") →
      ((∀ a t ki pk em : String,
        strField account "auth_uri" = some a → strField account "token_uri" = some t →
        strField account "private_key_id" = some ki → strField account "private_key" = some pk →
        strField account "client_email" = some em →
        processAccount account f = CmdExit.cont ⟨a, t, ki, pk, em, true⟩) ∧
       ((strField account "auth_uri" = none ∨ strField account "token_uri" = none ∨
         strField account "private_key_id" = none ∨ strField account "private_key" = none ∨
         strField account "client_email" = none) →
        processAccount account f = CmdExit.crash))) := by
  refine ⟨?_, ?_, ?_⟩
  · intro account f details hinst
    constructor
    · intro a t ci cs h1 h2 h3 h4
      simp only [processAccount, hinst, h1, h2, h3, h4]
    · intro hnone
      rcases ho1 : strField details "auth_uri" with _ | a <;>
        rcases ho2 : strField details "token_uri" with _ | t <;>
          rcases ho3 : strField details "client_id" with _ | ci <;>
            rcases ho4 : strField details "client_secret" with _ | cs <;>
              simp only [processAccount, hinst, ho1, ho2, ho3, ho4] <;>
                simp_all
  · intro account f j hinst hnotobj
    cases j with
    | obj d => exact absurd rfl (hnotobj d)
    | null => simp [processAccount, hinst]
    | bool b => simp [processAccount, hinst]
    | num n => simp [processAccount, hinst]
    | str s => simp [processAccount, hinst]
    | arr xs => simp [processAccount, hinst]
  · intro account f hinst hty
    constructor
    · intro a t ki pk em h1 h2 h3 h4 h5
      simp only [processAccount, hinst, hty, jsonEqStrVal, if_pos, h1, h2, h3, h4, h5]
      simp
    · intro hnone
      rcases ho1 : strField account "auth_uri" with _ | a <;>
        rcases ho2 : strField account "token_uri" with _ | t <;>
          rcases ho3 : strField account "private_key_id" with _ | ki <;>
            rcases ho4 : strField account "private_key" with _ | pk <;>
              rcases ho5 : strField account "client_email" with _ | em <;>
                simp only [processAccount, hinst, hty, jsonEqStrVal,
                  ho1, ho2, ho3, ho4, ho5] <;>
                  simp_all

/-- Witness for C10: a well-formed installed account is accepted, and one
whose installed object lacks auth_uri crashes rather than erroring. -/
theorem C10_witness :
    processAccount
      [("installed",
        JSON.obj [("auth_uri", JSON.str "https://a"), ("token_uri", JSON.str "https://t"),
                  ("client_id", JSON.str "CI"), ("client_secret", JSON.str "CS")])]
      "acct.json" = CmdExit.cont ⟨"https://a", "https://t", "CI", "CS", "", false⟩ ∧
    processAccount [("installed", JSON.obj [("token_uri", JSON.str "https://t")])]
      "acct.json" = CmdExit.crash :=
  ⟨(C10_account_shape_assertions.1
      [("installed",
        JSON.obj [("auth_uri", JSON.str "https://a"), ("token_uri", JSON.str "https://t"),
                  ("client_id", JSON.str "CI"), ("client_secret", JSON.str "CS")])]
      "acct.json"
      [("auth_uri", JSON.str "https://a"), ("token_uri", JSON.str "https://t"),
       ("client_id", JSON.str "CI"), ("client_secret", JSON.str "CS")] rfl).1
     "https://a" "https://t" "CI" "CS" rfl rfl rfl rfl,
   (C10_account_shape_assertions.1
      [("installed", JSON.obj [("token_uri", JSON.str "https://t")])] "acct.json"
      [("token_uri", JSON.str "https://t")] rfl).2 (Or.inl rfl)⟩

end StepOauth
